import Mathlib

/-!
Verification development for the sdm-pack-jira routing/caching core.

Shallow embedding of:
  * the channel notification preference model and its default filling
    (`mungeJiraPrefs`, `queryJiraChannelPrefs` in configureChannelPrefs.ts);
  * the event router (`routeEvent`, `getJiraIssueDescription` in routeEvent.ts);
  * the mapping hash key (`buildJiraHashKey` in shared.ts, together with a model
    of the third-party object-hash library it calls);
  * the cached detail fetcher (`getJiraDetails` in jiraDataLookup.ts);
  * the approval event handler guards (`onJiraIssueEventApprovalHandler`).

External collaborators (HTTP transport, preference store, chat delivery, message
formatting helpers) are passed in as explicit inputs, mirroring the values they
would return at runtime.  JavaScript `undefined`/`null` is modelled with
`Option`; a JavaScript `TypeError` thrown by dereferencing `undefined` or
`null` is modelled with `Except.error`.
-/

set_option maxHeartbeats 1000000

namespace SdmJira

/-- A fully populated channel preference record, as produced by
`mungeJiraPrefs`/`queryJiraChannelPrefs` (configureChannelPrefs.ts).  Field
order follows the object literal built by `mungeJiraPrefs`. -/
structure JiraPreference where
  channel : String
  issueComment : Bool
  issueDeleted : Bool
  issueCreated : Bool
  issueState : Bool
  issueStatus : Bool
  bug : Bool
  task : Bool
  epic : Bool
  story : Bool
  subtask : Bool
deriving DecidableEq, Repr

/-- A preference record as persisted: any of the boolean fields may be absent
(JavaScript `undefined`), which is modelled as `none`. -/
structure JiraPreferenceStored where
  channel : String
  issueComment : Option Bool
  issueDeleted : Option Bool
  issueCreated : Option Bool
  issueState : Option Bool
  issueStatus : Option Bool
  bug : Option Bool
  task : Option Bool
  epic : Option Bool
  story : Option Bool
  subtask : Option Bool
deriving DecidableEq, Repr

/-- The helper `a` inside `mungeJiraPrefs`: `b !== undefined ? b : true`. -/
def mungeDefault (b : Option Bool) : Bool := b.getD true

/-- Embeds `mungeJiraPrefs` (configureChannelPrefs.ts): every absent field of a
stored preference record is replaced by `true`. -/
def mungeJiraPrefs (prefs : JiraPreferenceStored) : JiraPreference :=
  ⟨prefs.channel,
   mungeDefault prefs.issueComment,
   mungeDefault prefs.issueDeleted,
   mungeDefault prefs.issueCreated,
   mungeDefault prefs.issueState,
   mungeDefault prefs.issueStatus,
   mungeDefault prefs.bug,
   mungeDefault prefs.task,
   mungeDefault prefs.epic,
   mungeDefault prefs.story,
   mungeDefault prefs.subtask⟩

/-- Embeds `queryJiraChannelPrefs` (configureChannelPrefs.ts).  The cached
store lookup (`cachedJiraPreferenceLookup`, an external collaborator) is passed
in as `lookupResult`: `some r` when a record exists, `none` otherwise. -/
def queryJiraChannelPrefs (lookupResult : Option JiraPreferenceStored)
    (channel : String) : JiraPreference :=
  match lookupResult with
  | some r => mungeJiraPrefs r
  | none => ⟨channel, true, true, true, false, false, true, true, true, true, true⟩

/-- Reference to the issue inside an inbound webhook event. -/
structure JiraIssueRef where
  id : String
  key : String
deriving DecidableEq, Repr

/-- An inbound JIRA issue event, with the fields `routeEvent` and the approval
handler consult.  `comment` and `issue_event_type_name` are nullable in the
GraphQL payload, hence `Option`.  `changelogPresent` records whether
`changelog` is non-null.  `issueTypeName` is the issue-type name (lower case,
one of bug/task/epic/story/subtask when recognized) used by the preference
filter. -/
structure JiraIssueEvent where
  webhookEvent : String
  issue_event_type_name : Option String
  issue : JiraIssueRef
  comment : Option String
  changelogPresent : Bool
  timestamp : String
  issueTypeName : Option String
deriving DecidableEq, Repr

/-- The five notification categories of the routing core. -/
inductive JiraCategory where
  | issueComment
  | issueStatus
  | issueState
  | issueCreated
  | issueDeleted
deriving DecidableEq, Repr

/-- The per-category flag of a preference record. -/
def categoryFlag (c : JiraPreference) : JiraCategory → Bool
  | .issueComment => c.issueComment
  | .issueStatus => c.issueStatus
  | .issueState => c.issueState
  | .issueCreated => c.issueCreated
  | .issueDeleted => c.issueDeleted

/-- The per-issue-type flag of a preference record; an unrecognized issue type
is treated as `true`. -/
def issueTypeFlag (c : JiraPreference) : Option String → Bool
  | some "bug" => c.bug
  | some "task" => c.task
  | some "epic" => c.epic
  | some "story" => c.story
  | some "subtask" => c.subtask
  | _ => true

/-- Modelled from the spec: `jiraParseChannels` lives in
src/lib/support/helpers/channelLookup.ts, which is absent from src/.  Per the
spec (Preference Filter) it returns the subset of channels whose preference
record has both the category flag and the issue-type flag enabled, the type
flag being treated as true when the issue type is unrecognized. -/
def jiraParseChannels (channels : List JiraPreference) (event : JiraIssueEvent)
    (category : JiraCategory) : List JiraPreference :=
  channels.filter (fun c => categoryFlag c category && issueTypeFlag c event.issueTypeName)

/-- The categories a single routing pass of `routeEvent` (routeEvent.ts, the
channel-filtering block) assigns to an event, in source order: the comment
branch, the `issue_event_type_name` switch (issue_generic to issueStatus,
issue_updated/issue_assigned to issueState), the issue_created branch, and the
`jira:issue_deleted` branch.  The four conditions are tested independently. -/
def routeCategories (event : JiraIssueEvent) : List JiraCategory :=
  (if event.comment.isSome then [JiraCategory.issueComment] else [])
  ++ (match event.issue_event_type_name with
      | some n =>
        if n = "issue_generic" then [JiraCategory.issueStatus]
        else if n = "issue_updated" ∨ n = "issue_assigned" then [JiraCategory.issueState]
        else []
      | none => [])
  ++ (if event.issue_event_type_name = some "issue_created" then [JiraCategory.issueCreated] else [])
  ++ (if event.webhookEvent = "jira:issue_deleted" then [JiraCategory.issueDeleted] else [])

/-- The channels the routing pass accumulates for one category.  All categories
go through `jiraParseChannels` except `issueDeleted`, for which `routeEvent`
directly filters on the `issueDeleted` flag alone
(`newChannels.filter(c => c.issueDeleted === true)`). -/
def channelsForCategory (newChannels : List JiraPreference) (event : JiraIssueEvent) :
    JiraCategory → List JiraPreference
  | .issueDeleted => newChannels.filter (fun c => c.issueDeleted == true)
  | c => jiraParseChannels newChannels event c

/-- The full channel list accumulated by the filtering block of `routeEvent`
(the `channels.push` calls), in source order. -/
def routeChannels (newChannels : List JiraPreference) (event : JiraIssueEvent) :
    List JiraPreference :=
  (routeCategories event).flatMap (channelsForCategory newChannels event)

/-- Message options handed to the chat delivery collaborator: a stable identity
and a post mode (the code uses the strings "always" and "update_only"). -/
structure MessageOptions where
  id : String
  post : String
deriving DecidableEq, Repr

/-- One available state transition of an issue. -/
structure JiraIssueTransition where
  id : String
  name : String
deriving DecidableEq, Repr

/-- The transitions resource fetched from the tracker. -/
structure JiraIssueTransitions where
  transitions : List JiraIssueTransition
deriving DecidableEq, Repr

/-- The issue fields `routeEvent` reads from the fetched issue detail. -/
structure IssueFields where
  summary : String
deriving DecidableEq, Repr

/-- The issue detail resource fetched from the tracker. -/
structure Issue where
  self : String
  fields : IssueFields
deriving DecidableEq, Repr

/-- The slack-messages `url` helper: a link rendered as `<link|text>`. -/
def slackUrl (link text : String) : String :=
  "<" ++ link ++ "|" ++ text ++ ">"

/-- Result record of `getJiraIssueDescription`.  All three locals are declared
without initialisers in the source, so each is `Option`: `none` models the
JavaScript `undefined` left behind by an unmatched switch case. -/
structure DescriptionResult where
  description : Option String
  issueTransitions : Option JiraIssueTransitions
  msgOptions : Option MessageOptions
deriving DecidableEq, Repr

/-- Embeds `getJiraIssueDescription` (routeEvent.ts).  The transitions fetch
performed inside the comment_created/issue_updated/issue_created cases is an
external HTTP call; its (successful) result is passed in as
`fetchedTransitions`.  The switch has cases for comment_created together with
jira:issue_updated, for jira:issue_created, and for jira:issue_deleted (which
does not assign `issueTransitions`); any other webhook event assigns none of
the three locals. -/
def getJiraIssueDescription (fetchedTransitions : JiraIssueTransitions)
    (issueDetail : Issue) (event : JiraIssueEvent) (newEvent : Bool)
    (jiraUrl : String) : DescriptionResult :=
  if event.webhookEvent = "comment_created" ∨ event.webhookEvent = "jira:issue_updated" then
    ⟨some ("JIRA Issue updated " ++ slackUrl (jiraUrl ++ "/browse/" ++ event.issue.key)
        (event.issue.key ++ ": " ++ issueDetail.fields.summary)),
     some fetchedTransitions,
     some ⟨"jira/issue_updated/" ++ event.issue.key ++ "/" ++ event.timestamp,
           if newEvent then "always" else "update_only"⟩⟩
  else if event.webhookEvent = "jira:issue_created" then
    ⟨some ("JIRA Issue created " ++ slackUrl (jiraUrl ++ "/browse/" ++ event.issue.key)
        (event.issue.key ++ ": " ++ issueDetail.fields.summary)),
     some fetchedTransitions,
     some ⟨"jira/issue_created/" ++ event.issue.key ++ "/" ++ event.timestamp,
           if newEvent then "always" else "update_only"⟩⟩
  else if event.webhookEvent = "jira:issue_deleted" then
    ⟨some (slackUrl (jiraUrl ++ "/browse/" ++ event.issue.key)
        ("JIRA Issue " ++ event.issue.key ++ " deleted")),
     none,
     some ⟨"jira/issue_deleted/" ++ event.issue.key ++ "/" ++ event.timestamp,
           if newEvent then "always" else "update_only"⟩⟩
  else ⟨none, none, none⟩

/-- Worker for the lodash `_.uniqBy(channels, "channel")` call: keeps the first
record seen for each channel identifier. -/
def uniqByChannelAux (seen : List String) : List JiraPreference → List JiraPreference
  | [] => []
  | c :: rest =>
    if c.channel ∈ seen then uniqByChannelAux seen rest
    else c :: uniqByChannelAux (c.channel :: seen) rest

/-- Embeds `_.uniqBy(channels, "channel")` as used by `routeEvent`. -/
def uniqByChannel (channels : List JiraPreference) : List JiraPreference :=
  uniqByChannelAux [] channels

/-- The external inputs of one `routeEvent` pass.  `candidateChannels` is the
result of `jiraDetermineNotifyChannels` (channelLookup.ts, absent from src/):
the preference records of the channels mapped to the event, an external
store/graph lookup.  `messageParts` stands for the attachments produced by the
four message formatting helpers (msgHelpers.ts; message rendering is an
external collaborator per the spec); only their combined count matters to the
routing control flow.  `fetchedTransitions` and `issueDetail` are the
successful results of the two cached HTTP fetches. -/
structure RouteEnv where
  candidateChannels : List JiraPreference
  issueDetail : Issue
  fetchedTransitions : JiraIssueTransitions
  messageParts : List String
  newEvent : Bool
  jiraUrl : String
deriving Repr

/-- What `routeEvent` hands to `messageClient.addressChannels`: the deduplicated
channel identifiers and the message options. -/
structure Dispatch where
  channels : List String
  msgOptions : Option MessageOptions
deriving DecidableEq, Repr

/-- Embeds the control flow of `routeEvent` (routeEvent.ts).  After computing
the description record and the channel list, the source unconditionally builds
the transition menu by calling `issueTransitions.hasOwnProperty(...)`; when
`getJiraIssueDescription` left `issueTransitions` undefined this dereference
throws a TypeError, modelled as `Except.error`.  Otherwise, a message is
dispatched only when both the message attachment list and the channel list are
non-empty, with channels deduplicated by identifier; the result is
`ok (some d)` on dispatch and `ok none` when the event is logged and dropped.
`routeDispatch` is the dispatch decision after the transition menu was built:
a message is sent only when both the message attachment list and the channel
list are non-empty, with channels deduplicated by identifier first. -/
def routeDispatch (msgOpts : Option MessageOptions) (messageCount : Nat)
    (channels : List JiraPreference) : Option Dispatch :=
  if 0 < messageCount ∧ 0 < channels.length then
    if 0 < (uniqByChannel channels).length then
      some ⟨(uniqByChannel channels).map (fun c => c.channel), msgOpts⟩
    else none
  else none

def routeEvent (env : RouteEnv) (event : JiraIssueEvent) :
    Except String (Option Dispatch) :=
  match (getJiraIssueDescription env.fetchedTransitions env.issueDetail event
      env.newEvent env.jiraUrl).issueTransitions with
  | none => Except.error "TypeError: cannot read property hasOwnProperty of undefined"
  | some _ =>
    Except.ok (routeDispatch
      (getJiraIssueDescription env.fetchedTransitions env.issueDetail event
        env.newEvent env.jiraUrl).msgOptions
      env.messageParts.length
      (routeChannels env.candidateChannels event))

/-- The five (webhookEvent, issue_event_type_name) rows of the category table
in the spec (Event Classifier, transition table).  Follows the spec text; used
to compare the router against the table. -/
def specPairListed (webhookEvent : String) (typeName : Option String) : Bool :=
  (webhookEvent == "jira:issue_created" && typeName == some "issue_created")
  || webhookEvent == "jira:issue_deleted"
  || webhookEvent == "comment_created"
  || (webhookEvent == "jira:issue_updated" &&
      (typeName == some "issue_generic" || typeName == some "issue_updated"
        || typeName == some "issue_assigned"))

/-- Observable outcome of one `getJiraDetails` call: the returned or thrown
value, the number of HTTP exchanges performed, and the cache writes
(url, body, ttl) performed. -/
structure FetchOutcome (V : Type) where
  result : Except String V
  exchanges : Nat
  cacheWrites : List (String × V × Nat)
deriving Repr

/-- Embeds `getJiraDetails` (jiraDataLookup.ts).  `useCacheConfig` is the
`sdm.jira.useCache` configuration value, `cacheGet` the `jiraCache.get` lookup
(`none` for an absent or expired entry, per the cache contract), and
`httpExchange` the transport collaborator.  The source computes
`useCache = config && cacheFlag`, returns the cached value with no exchange on
a hit, otherwise performs one exchange; on success it writes the cache if (and
only if) the `cacheFlag` parameter is set, and on failure it throws a wrapped
error without retrying or writing. -/
def getJiraDetails (V : Type) (useCacheConfig : Bool)
    (cacheGet : String → Option V) (httpExchange : String → Except String V)
    (url : String) (cacheFlag : Bool) (ttl : Nat) : FetchOutcome V :=
  match useCacheConfig && cacheFlag, cacheGet url with
  | true, some v => ⟨Except.ok v, 0, []⟩
  | _, _ =>
    match httpExchange url with
    | Except.ok body => ⟨Except.ok body, 1, if cacheFlag then [(url, body, ttl)] else []⟩
    | Except.error e =>
      ⟨Except.error ("Error: JIRA getJiraDetails: Failed to retrieve details for "
          ++ url ++ ", error thrown: " ++ e), 1, []⟩

/-- Outcome of the guard section of the approval handler: `success` models the
early `return Success` no-op paths, `proceeded` means the guards were passed
and the handler went on to the approval/goal-update logic (external graph and
goal collaborators, outside the guarded region the claims are about). -/
inductive ApprovalOutcome where
  | success
  | proceeded
deriving DecidableEq, Repr

/-- Embeds `onJiraIssueEventApprovalHandler` (onJiraIssueEvent.ts) up to the
status lookup.  The four regex executions over the fetched issue description
are external string matching; each argument is the value of
`/\[atomist:tag:(.*)\]/gm.exec(description)`: `none` when the regex did not
match (JavaScript null), `some g` when it matched with capture group `g`.  The
source indexes each exec result with `[1]` immediately, so a `none` result
throws a TypeError; likewise `issue_event_type_name.match(...)` throws when the
field is null and the webhook event is "jira:issue_updated". -/
def onJiraIssueEventApprovalHandler (shaRes ownerRes repoRes branchRes : Option String)
    (event : JiraIssueEvent) : Except String ApprovalOutcome :=
  match shaRes with
  | none => Except.error "TypeError: cannot read property 1 of null"
  | some sha =>
    match ownerRes with
    | none => Except.error "TypeError: cannot read property 1 of null"
    | some owner =>
      match repoRes with
      | none => Except.error "TypeError: cannot read property 1 of null"
      | some repo =>
        match branchRes with
        | none => Except.error "TypeError: cannot read property 1 of null"
        | some branch =>
          if sha = "" ∨ owner = "" ∨ repo = "" ∨ branch = "" then
            Except.ok ApprovalOutcome.success
          else if event.webhookEvent ≠ "jira:issue_updated" then
            Except.ok ApprovalOutcome.success
          else
            match event.issue_event_type_name with
            | none => Except.error "TypeError: cannot read property match of null"
            | some t =>
              if ¬ (t = "issue_generic" ∨ t = "issue_updated" ∨ t = "issue_assigned") then
                Except.ok ApprovalOutcome.success
              else if ¬ event.changelogPresent then
                Except.ok ApprovalOutcome.success
              else
                Except.ok ApprovalOutcome.proceeded

/-- The property names of a `JiraMapping` object (shared.ts): projectId,
channel, and the optional componentId. -/
inductive JKey where
  | projectId
  | channel
  | componentId
deriving DecidableEq, Repr

/-- A JavaScript value stored under a mapping property: either the explicit
value `undefined` or a string. -/
inductive JVal where
  | undef
  | str (s : String)
deriving DecidableEq, Repr

/-- A JavaScript `JiraMapping` object: its own enumerable properties in
insertion order.  A key that does not occur is an absent property, distinct
from a property explicitly set to `undefined`. -/
abbrev JPayload := List (JKey × JVal)

/-- Property lookup: the value of the first occurrence of the key, `none` when
the property is absent. -/
def getProp (p : JPayload) (k : JKey) : Option JVal :=
  match p with
  | [] => none
  | (k2, v) :: rest => if k2 = k then some v else getProp rest k

/-- JavaScript property access `payload.k`: an absent property reads as
`undefined`. -/
def jsAccess (p : JPayload) (k : JKey) : JVal :=
  (getProp p k).getD JVal.undef

/-- JavaScript string conversion as performed by string concatenation:
`undefined` becomes the string "undefined". -/
def jsToString : JVal → String
  | JVal.undef => "undefined"
  | JVal.str s => s

/-- JavaScript `s || dflt` on a string `s`: the empty string is falsy. -/
def jsOrDefault (s dflt : String) : String :=
  if s = "" then dflt else s

/-- Canonical name of each mapping property. -/
def keyName : JKey → String
  | JKey.channel => "channel"
  | JKey.componentId => "componentId"
  | JKey.projectId => "projectId"

/-- Serialisation of one value in the object-hash canonical form: `undefined`
is written literally, strings are written type- and length-tagged (so the
string "undefined" cannot collide with the value `undefined`). -/
def serVal : JVal → String
  | JVal.undef => "undefined"
  | JVal.str s => "string:" ++ toString s.length ++ ":" ++ s

/-- Canonical serialisation of one property: empty when absent, otherwise the
property name, the serialised value and a separator. -/
def entryStr (p : JPayload) (k : JKey) : String :=
  match getProp p k with
  | none => ""
  | some v => keyName k ++ ":" ++ serVal v ++ ","

/-- Number of present properties of the payload. -/
def presentCount (p : JPayload) : Nat :=
  (if (getProp p JKey.channel).isSome then 1 else 0)
  + (if (getProp p JKey.componentId).isSome then 1 else 0)
  + (if (getProp p JKey.projectId).isSome then 1 else 0)

/-- Model of the third-party object-hash npm library called by
`buildJiraHashKey` (not part of this repository): it hashes the canonical
serialisation of the object, writing the property count and the properties in
sorted key order (channel, componentId, projectId), with `undefined` values
written as "undefined" and string values type- and length-tagged.  The model
keeps the canonical serialisation itself as the hash. -/
def objectHash (p : JPayload) : String :=
  "object:" ++ toString (presentCount p) ++ ":"
  ++ entryStr p JKey.channel ++ entryStr p JKey.componentId ++ entryStr p JKey.projectId

/-- Embeds `buildJiraHashKey` (shared.ts).  Each template part is
`"-" + payload.field || ""`: `+` binds tighter than `||`, and `"-" + v` is a
non-empty (hence truthy) string, so the `|| ""` never applies and an absent or
undefined field contributes the literal "-undefined".  The object-hash of the
payload is appended after a final "-". -/
def buildJiraHashKey (workspaceId : String) (payload : JPayload) : String :=
  workspaceId
  ++ jsOrDefault ("-" ++ jsToString (jsAccess payload JKey.componentId)) ""
  ++ jsOrDefault ("-" ++ jsToString (jsAccess payload JKey.projectId)) ""
  ++ jsOrDefault ("-" ++ jsToString (jsAccess payload JKey.channel)) ""
  ++ "-" ++ objectHash payload

/-- C1 (counterexample): loading a stored preference record with every
category and issue-type field absent yields `issueState = true` and
`issueStatus = true`; the claim says absent issueState/issueStatus load as
disabled (false). -/
theorem mungeJiraPrefs_absent_state_flags_true :
    (mungeJiraPrefs ⟨"c1", none, none, none, none, none, none, none, none, none, none⟩).issueState = true
    ∧ (mungeJiraPrefs ⟨"c1", none, none, none, none, none, none, none, none, none, none⟩).issueStatus = true :=
  ⟨rfl, rfl⟩

/-- C1 (amended): `mungeJiraPrefs` treats every absent field of an existing
record as enabled (true), including the issueState and issueStatus category
flags; only when no record exists at all does `queryJiraChannelPrefs`
synthesize a full default record with issueState and issueStatus false and
every other category and issue-type flag true. -/
theorem jiraPrefs_default_fill :
    (∀ r : JiraPreferenceStored,
      mungeJiraPrefs r =
        ⟨r.channel, r.issueComment.getD true, r.issueDeleted.getD true,
         r.issueCreated.getD true, r.issueState.getD true, r.issueStatus.getD true,
         r.bug.getD true, r.task.getD true, r.epic.getD true, r.story.getD true,
         r.subtask.getD true⟩)
    ∧ (∀ (r : JiraPreferenceStored) (ch : String),
        queryJiraChannelPrefs (some r) ch = mungeJiraPrefs r)
    ∧ (∀ ch : String,
        queryJiraChannelPrefs none ch =
          ⟨ch, true, true, true, false, false, true, true, true, true, true⟩) :=
  ⟨fun _ => rfl, fun _ _ => rfl, fun _ => rfl⟩

/-- C6: for every jira:issue_created event, `getJiraIssueDescription` returns
message options whose identity is `jira/issue_created/` followed by the issue
key, a slash and the event timestamp, and whose post mode is "always" when
`newEvent` is true and "update_only" when it is false. -/
theorem getJiraIssueDescription_created_options
    (trans : JiraIssueTransitions) (detail : Issue) (e : JiraIssueEvent)
    (newEvent : Bool) (url : String) (h : e.webhookEvent = "jira:issue_created") :
    (getJiraIssueDescription trans detail e newEvent url).msgOptions =
      some ⟨"jira/issue_created/" ++ e.issue.key ++ "/" ++ e.timestamp,
            if newEvent then "always" else "update_only"⟩ := by
  unfold getJiraIssueDescription
  rw [h, if_neg (by decide), if_pos rfl]

/-- Witness for the C6 theorem at a concrete created event. -/
theorem getJiraIssueDescription_created_options_witness :
    (getJiraIssueDescription ⟨[]⟩ ⟨"self", ⟨"sum"⟩⟩
      ⟨"jira:issue_created", some "issue_created", ⟨"100", "PROJ-1"⟩, none, false, "1000", none⟩
      true "http://jira").msgOptions =
      some ⟨"jira/issue_created/PROJ-1/1000", "always"⟩ :=
  getJiraIssueDescription_created_options ⟨[]⟩ ⟨"self", ⟨"sum"⟩⟩
    ⟨"jira:issue_created", some "issue_created", ⟨"100", "PROJ-1"⟩, none, false, "1000", none⟩
    true "http://jira" rfl

/-- C8: a `getJiraDetails` call returns the cached value with no HTTP exchange
when caching is in effect (configuration flag and call flag both set) and an
unexpired entry exists; otherwise it performs exactly one HTTP exchange and,
only if that succeeds and the cacheable call flag is set, stores the result
under the url with the given ttl; on transport failure it throws a wrapped
error after the single exchange and writes nothing to the cache. -/
theorem getJiraDetails_cache_semantics (V : Type) (cfg : Bool)
    (cacheGet : String → Option V) (http : String → Except String V)
    (url : String) (cacheFlag : Bool) (ttl : Nat) :
    ((cfg && cacheFlag) = true → ∀ v, cacheGet url = some v →
      getJiraDetails V cfg cacheGet http url cacheFlag ttl = ⟨Except.ok v, 0, []⟩)
    ∧ (((cfg && cacheFlag) = false ∨ cacheGet url = none) → ∀ v, http url = Except.ok v →
      getJiraDetails V cfg cacheGet http url cacheFlag ttl =
        ⟨Except.ok v, 1, if cacheFlag then [(url, v, ttl)] else []⟩)
    ∧ (((cfg && cacheFlag) = false ∨ cacheGet url = none) → ∀ e, http url = Except.error e →
      getJiraDetails V cfg cacheGet http url cacheFlag ttl =
        ⟨Except.error ("Error: JIRA getJiraDetails: Failed to retrieve details for "
            ++ url ++ ", error thrown: " ++ e), 1, []⟩) := by
  refine ⟨?_, ?_, ?_⟩
  · intro h v hv
    unfold getJiraDetails
    rw [h, hv]
  · intro h v hv
    unfold getJiraDetails
    rcases h with h | h
    · rw [h, hv]
    · rw [h, hv]
      cases cfg && cacheFlag <;> rfl
  · intro h e he
    unfold getJiraDetails
    rcases h with h | h
    · rw [h, he]
    · rw [h, he]
      cases cfg && cacheFlag <;> rfl

/-- Witness for the C8 theorem: a cache hit with caching in effect returns the
cached value with zero exchanges and no cache writes. -/
theorem getJiraDetails_cache_semantics_witness :
    getJiraDetails Nat true (fun _ => some 7) (fun _ => Except.error "down") "u" true 60 =
      ⟨Except.ok 7, 0, []⟩ :=
  (getJiraDetails_cache_semantics Nat true (fun _ => some 7)
    (fun _ => Except.error "down") "u" true 60).1 rfl 7 rfl

/-- C10: with the `sdm.jira.useCache` configuration value false, a successful
`getJiraDetails` call with the cacheable flag set still writes the fetched
body into the cache under the url with the given ttl (the configuration flag
gates only whether cached values are returned, not whether the cache is
populated). -/
theorem getJiraDetails_writes_cache_config_off (V : Type)
    (cacheGet : String → Option V) (http : String → Except String V)
    (url : String) (ttl : Nat) (v : V) (h : http url = Except.ok v) :
    (getJiraDetails V false cacheGet http url true ttl).cacheWrites = [(url, v, ttl)]
    ∧ (getJiraDetails V false cacheGet http url true ttl).result = Except.ok v
    ∧ (getJiraDetails V false cacheGet http url true ttl).exchanges = 1 := by
  unfold getJiraDetails
  rw [h]
  exact ⟨rfl, rfl, rfl⟩

/-- Witness for the C10 theorem at a concrete successful fetch. -/
theorem getJiraDetails_writes_cache_config_off_witness :
    (getJiraDetails Nat false (fun _ => some 9) (fun _ => Except.ok 3) "u" true 60).cacheWrites
      = [("u", 3, 60)] :=
  (getJiraDetails_writes_cache_config_off Nat (fun _ => some 9)
    (fun _ => Except.ok 3) "u" 60 3 rfl).1

/-- C9: evaluating the approval handler on an issue whose description lacks
the sha marker (the regex exec result is null) throws a TypeError instead of
logging and returning success; the same happens when only the branch marker is
missing.  The early no-op return is reachable only when all four regexes
match. -/
theorem approvalHandler_missing_marker_throws :
    onJiraIssueEventApprovalHandler none none none none
      ⟨"jira:issue_updated", some "issue_generic", ⟨"1", "K-1"⟩, none, true, "t", none⟩
      = Except.error "TypeError: cannot read property 1 of null"
    ∧ onJiraIssueEventApprovalHandler (some "abc123") (some "own") (some "rep") none
      ⟨"jira:issue_updated", some "issue_generic", ⟨"1", "K-1"⟩, none, true, "t", none⟩
      = Except.error "TypeError: cannot read property 1 of null" :=
  ⟨rfl, rfl⟩

/-- C4: on a jira:issue_deleted event the channel-filtering block nominates
every candidate whose `issueDeleted` flag is set even when the flag for the
issue type (here: a bug-type issue against a channel with `bug = false`) is
disabled, and `routeEvent` then throws a TypeError before dispatching,
because the deleted case of `getJiraIssueDescription` leaves the transitions
value undefined and the transition menu dereferences it. -/
theorem routeEvent_deleted_throws :
    routeEvent
      ⟨[⟨"c1", true, true, true, true, true, false, true, true, true, true⟩],
       ⟨"self", ⟨"sum"⟩⟩, ⟨[]⟩, ["m"], true, "http://jira"⟩
      ⟨"jira:issue_deleted", some "issue_deleted", ⟨"100", "K-1"⟩, none, false, "1000", some "bug"⟩
      = Except.error "TypeError: cannot read property hasOwnProperty of undefined"
    ∧ routeChannels [⟨"c1", true, true, true, true, true, false, true, true, true, true⟩]
      ⟨"jira:issue_deleted", some "issue_deleted", ⟨"100", "K-1"⟩, none, false, "1000", some "bug"⟩
      = [⟨"c1", true, true, true, true, true, false, true, true, true, true⟩] :=
  ⟨rfl, rfl⟩

/-- C2 (counterexample): an issue_updated event that carries a non-null
comment is assigned both the issueComment and the issueState categories in a
single routing pass, and a channel subscribed to both is nominated twice. -/
theorem routeCategories_two_categories :
    routeCategories
      ⟨"jira:issue_updated", some "issue_updated", ⟨"100", "K-1"⟩, some "a comment", false, "1000", none⟩
      = [JiraCategory.issueComment, JiraCategory.issueState]
    ∧ routeChannels [⟨"c1", true, true, true, true, true, true, true, true, true, true⟩]
      ⟨"jira:issue_updated", some "issue_updated", ⟨"100", "K-1"⟩, some "a comment", false, "1000", none⟩
      = [⟨"c1", true, true, true, true, true, true, true, true, true, true⟩,
         ⟨"c1", true, true, true, true, true, true, true, true, true, true⟩] :=
  ⟨rfl, rfl⟩

/-- C2 (amended): one routing pass assigns at most one of the categories
issueCreated, issueStatus, issueState (they branch exclusively on
`issue_event_type_name`); in addition, issueComment is assigned exactly when
the event carries a non-null comment and issueDeleted exactly when the webhook
event is jira:issue_deleted, independently of the other branches, so a single
event can contribute channels under more than one category. -/
theorem routeCategories_at_most_one_primary (e : JiraIssueEvent) :
    ((routeCategories e).filter (fun c =>
        decide (c = JiraCategory.issueCreated ∨ c = JiraCategory.issueStatus
          ∨ c = JiraCategory.issueState))).length ≤ 1
    ∧ (JiraCategory.issueComment ∈ routeCategories e ↔ e.comment.isSome = true)
    ∧ (JiraCategory.issueDeleted ∈ routeCategories e ↔ e.webhookEvent = "jira:issue_deleted") := by
  unfold routeCategories
  rcases hcm : e.comment with _ | cval <;>
    rcases htn : e.issue_event_type_name with _ | n <;>
      (try simp) <;> (try split_ifs) <;> (try simp_all) <;>
      (try split_ifs) <;> simp_all

/-- C3 (counterexample): the pair ("jira:nonlisted", "issue_created") is not
one of the five rows of the category table, yet the routing pass assigns the
issueCreated category and nominates a subscribed channel, because the created
branch tests only `issue_event_type_name`. -/
theorem routeCategories_unlisted_pair_assigned :
    specPairListed "jira:nonlisted" (some "issue_created") = false
    ∧ routeCategories
      ⟨"jira:nonlisted", some "issue_created", ⟨"100", "K-1"⟩, none, false, "1000", none⟩
      = [JiraCategory.issueCreated]
    ∧ routeChannels [⟨"c2", true, true, true, true, true, true, true, true, true, true⟩]
      ⟨"jira:nonlisted", some "issue_created", ⟨"100", "K-1"⟩, none, false, "1000", none⟩
      = [⟨"c2", true, true, true, true, true, true, true, true, true, true⟩] :=
  ⟨rfl, rfl, rfl⟩

/-- C3 (amended): an event whose pair is not among the five listed rows is
assigned no category, keeps the channel set empty and is dropped without an
error, provided its comment is null, its `issue_event_type_name` is none of
the four branch-triggering names, and its webhook event is one of
comment_created, jira:issue_updated, jira:issue_created.  (Outside these
conditions the claim fails: a recognized type name under an unlisted webhook
event still assigns a category, and an unrecognized webhook event value makes
`routeEvent` throw on the undefined transitions value.) -/
theorem routeEvent_unlisted_pair_dropped (env : RouteEnv) (e : JiraIssueEvent)
    (hp : specPairListed e.webhookEvent e.issue_event_type_name = false)
    (ht1 : e.issue_event_type_name ≠ some "issue_created")
    (ht2 : e.issue_event_type_name ≠ some "issue_generic")
    (ht3 : e.issue_event_type_name ≠ some "issue_updated")
    (ht4 : e.issue_event_type_name ≠ some "issue_assigned")
    (hc : e.comment = none)
    (hw : e.webhookEvent = "comment_created" ∨ e.webhookEvent = "jira:issue_updated"
        ∨ e.webhookEvent = "jira:issue_created") :
    routeCategories e = [] ∧ routeEvent env e = Except.ok none := by
  have hnd : e.webhookEvent ≠ "jira:issue_deleted" := by
    rcases hw with h | h | h <;> rw [h] <;> decide
  have hcat : routeCategories e = [] := by
    rcases htn : e.issue_event_type_name with _ | n
    · simp [routeCategories, hc, htn, hnd]
    · have hn1 : n ≠ "issue_created" := fun hh => ht1 (by rw [htn, hh])
      have hn2 : n ≠ "issue_generic" := fun hh => ht2 (by rw [htn, hh])
      have hn3 : n ≠ "issue_updated" := fun hh => ht3 (by rw [htn, hh])
      have hn4 : n ≠ "issue_assigned" := fun hh => ht4 (by rw [htn, hh])
      simp [routeCategories, hc, htn, hn1, hn2, hn3, hn4, hnd]
  have hch : routeChannels env.candidateChannels e = [] := by
    unfold routeChannels
    rw [hcat]
    rfl
  have htrans : (getJiraIssueDescription env.fetchedTransitions env.issueDetail e
      env.newEvent env.jiraUrl).issueTransitions = some env.fetchedTransitions := by
    unfold getJiraIssueDescription
    rcases hw with h | h | h
    · rw [if_pos (Or.inl h)]
    · rw [if_pos (Or.inr h)]
    · rw [if_neg (by rw [h]; decide), if_pos h]
  refine ⟨hcat, ?_⟩
  unfold routeEvent
  rw [htrans, hch]
  simp [routeDispatch]

/-- Witness for the C3 amended theorem at a concrete unlisted pair. -/
theorem routeEvent_unlisted_pair_dropped_witness :
    routeCategories
      ⟨"jira:issue_updated", some "issue_weird", ⟨"100", "K-1"⟩, none, false, "1000", none⟩ = []
    ∧ routeEvent
      ⟨[⟨"c1", true, true, true, true, true, true, true, true, true, true⟩],
       ⟨"self", ⟨"sum"⟩⟩, ⟨[]⟩, ["m"], true, "http://jira"⟩
      ⟨"jira:issue_updated", some "issue_weird", ⟨"100", "K-1"⟩, none, false, "1000", none⟩
      = Except.ok none :=
  routeEvent_unlisted_pair_dropped
    ⟨[⟨"c1", true, true, true, true, true, true, true, true, true, true⟩],
     ⟨"self", ⟨"sum"⟩⟩, ⟨[]⟩, ["m"], true, "http://jira"⟩
    ⟨"jira:issue_updated", some "issue_weird", ⟨"100", "K-1"⟩, none, false, "1000", none⟩
    rfl (by decide) (by decide) (by decide) (by decide) rfl (Or.inr (Or.inl rfl))

/-- Worker lemma for channel deduplication: the channel identifiers produced
by `uniqByChannelAux` contain no duplicates and avoid the accumulator. -/
theorem uniqByChannelAux_spec (L : List JiraPreference) : ∀ seen : List String,
    ((uniqByChannelAux seen L).map (fun c => c.channel)).Nodup
    ∧ ∀ s ∈ (uniqByChannelAux seen L).map (fun c => c.channel), s ∉ seen := by
  induction L with
  | nil => intro seen; simp [uniqByChannelAux]
  | cons c rest ih =>
    intro seen
    unfold uniqByChannelAux
    by_cases hm : c.channel ∈ seen
    · rw [if_pos hm]
      exact ih seen
    · rw [if_neg hm]
      obtain ⟨ihnd, ihseen⟩ := ih (c.channel :: seen)
      refine ⟨?_, ?_⟩
      · simp only [List.map_cons, List.nodup_cons]
        exact ⟨fun hmem => (ihseen _ hmem) (List.mem_cons_self _ _), ihnd⟩
      · intro s hs hseen
        simp only [List.map_cons, List.mem_cons] at hs
        rcases hs with rfl | hs
        · exact hm hseen
        · exact ihseen s hs (List.mem_cons_of_mem _ hseen)

/-- C7: whenever `routeEvent` dispatches a notification, the channel
identifier list handed to the chat delivery collaborator contains each channel
at most once. -/
theorem routeEvent_dispatch_channels_nodup (env : RouteEnv) (e : JiraIssueEvent)
    (d : Dispatch) (h : routeEvent env e = Except.ok (some d)) :
    d.channels.Nodup := by
  unfold routeEvent at h
  rcases htr : (getJiraIssueDescription env.fetchedTransitions env.issueDetail e
      env.newEvent env.jiraUrl).issueTransitions with _ | tr
  · rw [htr] at h
    exact absurd h (by simp)
  · rw [htr] at h
    simp only [Except.ok.injEq] at h
    unfold routeDispatch at h
    split_ifs at h
    all_goals first
      | (simp only [Option.some.injEq] at h
         rw [← h]
         exact (uniqByChannelAux_spec (routeChannels env.candidateChannels e) []).1)
      | exact absurd h (by simp)

/-- Witness for the C7 theorem: a concrete dispatching pass, with two
candidate records for the same channel nominated and deduplicated to one. -/
theorem routeEvent_dispatch_channels_nodup_witness :
    routeEvent
      ⟨[⟨"c1", true, true, true, true, true, true, true, true, true, true⟩,
        ⟨"c1", true, false, true, true, true, true, true, true, true, true⟩],
       ⟨"self", ⟨"sum"⟩⟩, ⟨[]⟩, ["m"], true, "http://jira"⟩
      ⟨"jira:issue_created", some "issue_created", ⟨"100", "K-1"⟩, none, false, "1000", none⟩
      = Except.ok (some ⟨["c1"], some ⟨"jira/issue_created/K-1/1000", "always"⟩⟩)
    ∧ (Dispatch.channels ⟨["c1"], some ⟨"jira/issue_created/K-1/1000", "always"⟩⟩).Nodup :=
  ⟨rfl,
   routeEvent_dispatch_channels_nodup
    ⟨[⟨"c1", true, true, true, true, true, true, true, true, true, true⟩,
      ⟨"c1", true, false, true, true, true, true, true, true, true, true⟩],
     ⟨"self", ⟨"sum"⟩⟩, ⟨[]⟩, ["m"], true, "http://jira"⟩
    ⟨"jira:issue_created", some "issue_created", ⟨"100", "K-1"⟩, none, false, "1000", none⟩
    ⟨["c1"], some ⟨"jira/issue_created/K-1/1000", "always"⟩⟩ rfl⟩

/-- A dash followed by anything is a non-empty string. -/
theorem dash_append_ne_empty (s : String) : ("-" ++ s) ≠ "" := by
  intro h
  have h2 := congrArg String.length h
  rw [String.length_append] at h2
  have h3 : ("-" : String).length = 1 := rfl
  have h4 : ("" : String).length = 0 := rfl
  omega

/-- The `|| ""` in the hash key template never applies: its left operand is
always a non-empty, hence truthy, string. -/
theorem jsOrDefault_dash (s : String) : jsOrDefault ("-" ++ s) "" = "-" ++ s := by
  unfold jsOrDefault
  rw [if_neg (dash_append_ne_empty s)]

/-- The hash key written as a plain concatenation of its parts. -/
theorem buildJiraHashKey_parts (w : String) (p : JPayload) :
    buildJiraHashKey w p =
      w ++ ("-" ++ jsToString (jsAccess p JKey.componentId))
        ++ ("-" ++ jsToString (jsAccess p JKey.projectId))
        ++ ("-" ++ jsToString (jsAccess p JKey.channel))
        ++ "-" ++ objectHash p := by
  unfold buildJiraHashKey
  rw [jsOrDefault_dash, jsOrDefault_dash, jsOrDefault_dash]

/-- Length decomposition of the hash key. -/
theorem buildJiraHashKey_length (w : String) (p : JPayload) :
    (buildJiraHashKey w p).length =
      w.length + 1 + (jsToString (jsAccess p JKey.componentId)).length
        + 1 + (jsToString (jsAccess p JKey.projectId)).length
        + 1 + (jsToString (jsAccess p JKey.channel)).length
        + 1 + 8 + (toString (presentCount p)).length
        + (entryStr p JKey.channel).length + (entryStr p JKey.componentId).length
        + (entryStr p JKey.projectId).length := by
  rw [buildJiraHashKey_parts]
  unfold objectHash
  simp only [String.length_append]
  have h1 : ("-" : String).length = 1 := rfl
  have h7 : ("object:" : String).length = 7 := rfl
  have hc : (":" : String).length = 1 := rfl
  omega

/-- Decimal representation of a single-digit number has one character. -/
theorem natToString_length_one (n : Nat) (h : n ≤ 9) : (toString n).length = 1 := by
  interval_cases n <;> rfl

/-- C5: the mapping hash key is deterministic and depends only on the
key-to-value mapping of the payload (so property insertion order is
irrelevant), and a payload with the optional componentId absent, the same
payload with componentId explicitly undefined, and the same payload with
componentId the empty string produce pairwise distinct keys. -/
theorem buildJiraHashKey_spec (w : String) (p q : JPayload) :
    ((∀ k, getProp p k = getProp q k) → buildJiraHashKey w p = buildJiraHashKey w q)
    ∧ (getProp p JKey.componentId = none →
       getProp q JKey.componentId = some JVal.undef →
       getProp p JKey.projectId = getProp q JKey.projectId →
       getProp p JKey.channel = getProp q JKey.channel →
       buildJiraHashKey w p ≠ buildJiraHashKey w q)
    ∧ (getProp p JKey.componentId = none →
       getProp q JKey.componentId = some (JVal.str "") →
       getProp p JKey.projectId = getProp q JKey.projectId →
       getProp p JKey.channel = getProp q JKey.channel →
       buildJiraHashKey w p ≠ buildJiraHashKey w q)
    ∧ (getProp p JKey.componentId = some JVal.undef →
       getProp q JKey.componentId = some (JVal.str "") →
       getProp p JKey.projectId = getProp q JKey.projectId →
       getProp p JKey.channel = getProp q JKey.channel →
       buildJiraHashKey w p ≠ buildJiraHashKey w q) := by
  have h9 : ("undefined" : String).length = 9 := rfl
  have h0 : ("" : String).length = 0 := rfl
  have h22 : ("componentId:undefined," : String).length = 22 := rfl
  have h22b : ("componentId:string:0:," : String).length = 22 := rfl
  refine ⟨?_, ?_, ?_, ?_⟩
  · intro h
    have h1 := h JKey.channel
    have h2 := h JKey.componentId
    have h3 := h JKey.projectId
    simp only [buildJiraHashKey, jsAccess, objectHash, presentCount, entryStr, h1, h2, h3]
  · intro hcp hcq hpj hch heq
    have hlen := congrArg String.length heq
    rw [buildJiraHashKey_length w p, buildJiraHashKey_length w q] at hlen
    have d1 : jsToString (jsAccess p JKey.componentId) = "undefined" := by
      rw [jsAccess, hcp]; rfl
    have d2 : jsToString (jsAccess q JKey.componentId) = "undefined" := by
      rw [jsAccess, hcq]; rfl
    have e1 : entryStr p JKey.componentId = "" := by rw [entryStr, hcp]
    have e2 : entryStr q JKey.componentId = "componentId:undefined," := by
      rw [entryStr, hcq]; rfl
    have j1 : jsAccess p JKey.projectId = jsAccess q JKey.projectId := by
      rw [jsAccess, jsAccess, hpj]
    have j2 : jsAccess p JKey.channel = jsAccess q JKey.channel := by
      rw [jsAccess, jsAccess, hch]
    have f1 : entryStr p JKey.projectId = entryStr q JKey.projectId := by
      rw [entryStr, entryStr, hpj]
    have f2 : entryStr p JKey.channel = entryStr q JKey.channel := by
      rw [entryStr, entryStr, hch]
    have pc : presentCount q = presentCount p + 1 := by
      unfold presentCount
      rw [hcp, hcq, hch, hpj]
      cases (getProp q JKey.channel).isSome <;>
        cases (getProp q JKey.projectId).isSome <;> simp
    have hple : presentCount p ≤ 2 := by
      unfold presentCount
      rw [hcp]
      split_ifs <;> first | simp_all | omega
    have l1 : (toString (presentCount p)).length = 1 := natToString_length_one _ (by omega)
    have l2 : (toString (presentCount q)).length = 1 := natToString_length_one _ (by omega)
    rw [d1, d2, e1, e2, j1, j2, f1, f2, l1, l2] at hlen
    omega
  · intro hcp hcq hpj hch heq
    have hlen := congrArg String.length heq
    rw [buildJiraHashKey_length w p, buildJiraHashKey_length w q] at hlen
    have d1 : jsToString (jsAccess p JKey.componentId) = "undefined" := by
      rw [jsAccess, hcp]; rfl
    have d2 : jsToString (jsAccess q JKey.componentId) = "" := by
      rw [jsAccess, hcq]; rfl
    have e1 : entryStr p JKey.componentId = "" := by rw [entryStr, hcp]
    have e2 : entryStr q JKey.componentId = "componentId:string:0:," := by
      rw [entryStr, hcq]; rfl
    have j1 : jsAccess p JKey.projectId = jsAccess q JKey.projectId := by
      rw [jsAccess, jsAccess, hpj]
    have j2 : jsAccess p JKey.channel = jsAccess q JKey.channel := by
      rw [jsAccess, jsAccess, hch]
    have f1 : entryStr p JKey.projectId = entryStr q JKey.projectId := by
      rw [entryStr, entryStr, hpj]
    have f2 : entryStr p JKey.channel = entryStr q JKey.channel := by
      rw [entryStr, entryStr, hch]
    have pc : presentCount q = presentCount p + 1 := by
      unfold presentCount
      rw [hcp, hcq, hch, hpj]
      cases (getProp q JKey.channel).isSome <;>
        cases (getProp q JKey.projectId).isSome <;> simp
    have hple : presentCount p ≤ 2 := by
      unfold presentCount
      rw [hcp]
      split_ifs <;> first | simp_all | omega
    have l1 : (toString (presentCount p)).length = 1 := natToString_length_one _ (by omega)
    have l2 : (toString (presentCount q)).length = 1 := natToString_length_one _ (by omega)
    rw [d1, d2, e1, e2, j1, j2, f1, f2, l1, l2] at hlen
    omega
  · intro hcp hcq hpj hch heq
    have hlen := congrArg String.length heq
    rw [buildJiraHashKey_length w p, buildJiraHashKey_length w q] at hlen
    have d1 : jsToString (jsAccess p JKey.componentId) = "undefined" := by
      rw [jsAccess, hcp]; rfl
    have d2 : jsToString (jsAccess q JKey.componentId) = "" := by
      rw [jsAccess, hcq]; rfl
    have e1 : entryStr p JKey.componentId = "componentId:undefined," := by
      rw [entryStr, hcp]; rfl
    have e2 : entryStr q JKey.componentId = "componentId:string:0:," := by
      rw [entryStr, hcq]; rfl
    have j1 : jsAccess p JKey.projectId = jsAccess q JKey.projectId := by
      rw [jsAccess, jsAccess, hpj]
    have j2 : jsAccess p JKey.channel = jsAccess q JKey.channel := by
      rw [jsAccess, jsAccess, hch]
    have f1 : entryStr p JKey.projectId = entryStr q JKey.projectId := by
      rw [entryStr, entryStr, hpj]
    have f2 : entryStr p JKey.channel = entryStr q JKey.channel := by
      rw [entryStr, entryStr, hch]
    have pc : presentCount p = presentCount q := by
      unfold presentCount
      rw [hcp, hcq, hch, hpj]
      simp
    rw [d1, d2, e1, e2, j1, j2, f1, f2, pc] at hlen
    omega

/-- Witness for the C5 theorem: insertion order does not change the key for a
concrete two-property payload, and the three componentId variants of the
claim's example payload have pairwise distinct keys. -/
theorem buildJiraHashKey_spec_witness :
    buildJiraHashKey "W" [(JKey.channel, JVal.str "c"), (JKey.projectId, JVal.str "A")]
      = buildJiraHashKey "W" [(JKey.projectId, JVal.str "A"), (JKey.channel, JVal.str "c")]
    ∧ buildJiraHashKey "W" [(JKey.projectId, JVal.str "A")]
      ≠ buildJiraHashKey "W" [(JKey.projectId, JVal.str "A"), (JKey.componentId, JVal.undef)]
    ∧ buildJiraHashKey "W" [(JKey.projectId, JVal.str "A")]
      ≠ buildJiraHashKey "W" [(JKey.projectId, JVal.str "A"), (JKey.componentId, JVal.str "")]
    ∧ buildJiraHashKey "W" [(JKey.projectId, JVal.str "A"), (JKey.componentId, JVal.undef)]
      ≠ buildJiraHashKey "W" [(JKey.projectId, JVal.str "A"), (JKey.componentId, JVal.str "")] :=
  ⟨(buildJiraHashKey_spec "W" _ _).1 (fun k => by cases k <;> rfl),
   (buildJiraHashKey_spec "W" _ _).2.1 rfl rfl rfl rfl,
   (buildJiraHashKey_spec "W" _ _).2.2.1 rfl rfl rfl rfl,
   (buildJiraHashKey_spec "W" _ _).2.2.2 rfl rfl rfl rfl⟩

end SdmJira
